import Mathlib

/-!
Shallow embedding of `video2doc` (src/main.py), a pipeline that turns a
video file into a timestamped markdown transcript.  Python floats are
modelled as exact rationals (ℚ); Python's `int()`, `//` and `%` on
non-negative floats are modelled explicitly below.  The document
generator is a pure function; the orchestrator (`main`) is modelled as a
function over an environment describing the outcomes of the external
tools (ffmpeg, ffprobe, whisper, the filesystem).
-/

namespace Video2doc

/-- Model of Python's `int()` on a real number: truncation toward zero. -/
def pyint (q : ℚ) : ℤ :=
  if 0 ≤ q then ⌊q⌋ else -⌊-q⌋

/-- Model of Python's float floor-division `a // b`: the floor of the
quotient, returned as a float (here: an integer-valued rational). -/
def pyfloordiv (a b : ℚ) : ℚ :=
  (⌊a / b⌋ : ℤ)

/-- Model of Python's float modulo `a % b` (sign follows the divisor;
all uses in the source have a positive literal divisor):
`a % b = a - b * (a // b)`. -/
def pymod (a b : ℚ) : ℚ :=
  a - b * pyfloordiv a b

/-- Model of Python's `f"{n:02d}"`: decimal rendering zero-padded on the
left to width 2. -/
def pad2 (n : ℤ) : String :=
  if 0 ≤ n ∧ n < 10 then "0" ++ toString n else toString n

/-- `format_timestamp` from src/main.py: seconds → `HH:MM:SS`.
```python
h = int(seconds // 3600)
m = int((seconds % 3600) // 60)
s = int(seconds % 60)
return f"{h:02d}:{m:02d}:{s:02d}"
``` -/
def format_timestamp (seconds : ℚ) : String :=
  let h := pyint (pyfloordiv seconds 3600)
  let m := pyint (pyfloordiv (pymod seconds 3600) 60)
  let s := pyint (pymod seconds 60)
  pad2 h ++ ":" ++ pad2 m ++ ":" ++ pad2 s

/-- `format_duration` from src/main.py: seconds → human-readable length.
```python
m = int(seconds // 60)
s = int(seconds % 60)
if m > 0:
    return f"{m}分{s}秒"
return f"{s}秒"
``` -/
def format_duration (seconds : ℚ) : String :=
  let m := pyint (pyfloordiv seconds 60)
  let s := pyint (pymod seconds 60)
  if 0 < m then toString m ++ "分" ++ toString s ++ "秒"
  else toString s ++ "秒"

/-! ### Arithmetic lemmas about the float-operation models -/

theorem pyint_intCast (k : ℤ) : pyint (k : ℚ) = k := by
  unfold pyint
  split
  · exact Int.floor_intCast k
  · rw [show (-(k:ℚ)) = ((-k : ℤ) : ℚ) by push_cast; ring, Int.floor_intCast]
    ring

theorem pyint_of_nonneg (q : ℚ) (h : 0 ≤ q) : pyint q = ⌊q⌋ := by
  unfold pyint
  exact if_pos h

/-- Flooring first does not change the result of a floor-division by a
natural number, for non-negative arguments. -/
theorem floor_intCast_floor_div (a : ℚ) (ha : 0 ≤ a) (n : ℕ) :
    ⌊((⌊a⌋ : ℚ)) / (n : ℚ)⌋ = ⌊a / (n : ℚ)⌋ := by
  have hfl : ((⌊a⌋ : ℚ)) = ((⌊a⌋₊ : ℕ) : ℚ) := (natCast_floor_eq_intCast_floor ha).symm
  have h1 : ⌊((⌊a⌋₊ : ℕ) : ℚ) / (n : ℚ)⌋ = ((⌊a⌋₊ / n : ℕ) : ℤ) := by
    rw [← Int.natCast_floor_eq_floor (div_nonneg (by positivity) (by positivity)),
      Nat.floor_div_eq_div]
  have h2 : ⌊a / (n : ℚ)⌋ = ((⌊a⌋₊ / n : ℕ) : ℤ) := by
    rw [← Int.natCast_floor_eq_floor (div_nonneg ha (by positivity)), Nat.floor_div_nat]
  rw [hfl, h1, h2]

theorem pymod_nonneg (a : ℚ) (b : ℚ) (hb : 0 < b) : 0 ≤ pymod a b := by
  unfold pymod pyfloordiv
  have := Int.sub_floor_div_mul_nonneg a hb
  calc (0:ℚ) ≤ a - ⌊a / b⌋ * b := this
    _ = a - b * ((⌊a / b⌋ : ℤ) : ℚ) := by ring

/-- `int(a % n)` for a natural divisor `n > 0`. -/
theorem pyint_pymod (a : ℚ) (n : ℕ) (hn : 0 < n) :
    pyint (pymod a (n : ℚ)) = ⌊a⌋ - n * ⌊a / (n : ℚ)⌋ := by
  have hb : (0:ℚ) < (n : ℚ) := by exact_mod_cast hn
  rw [pyint_of_nonneg _ (pymod_nonneg a _ hb)]
  unfold pymod pyfloordiv
  have : a - (n : ℚ) * ((⌊a / (n:ℚ)⌋ : ℤ) : ℚ) = a - (((n * ⌊a / (n:ℚ)⌋ : ℤ)) : ℚ) := by
    push_cast; ring
  rw [this, Int.floor_sub_int]

/-- `int((a % 3600) // 60)`. -/
theorem pyint_pyfloordiv_pymod (a : ℚ) :
    pyint (pyfloordiv (pymod a 3600) 60) = ⌊a / 60⌋ - 60 * ⌊a / 3600⌋ := by
  unfold pymod pyfloordiv
  rw [pyint_intCast]
  have : (a - 3600 * ((⌊a / 3600⌋ : ℤ) : ℚ)) / 60
      = a / 60 - (((60 * ⌊a / 3600⌋ : ℤ)) : ℚ) := by push_cast; ring
  rw [this, Int.floor_sub_int]

/-- Closed form of `format_timestamp`. -/
theorem format_timestamp_eq (s : ℚ) :
    format_timestamp s =
      pad2 ⌊s / 3600⌋ ++ ":" ++ pad2 (⌊s / 60⌋ - 60 * ⌊s / 3600⌋) ++ ":"
        ++ pad2 (⌊s⌋ - 60 * ⌊s / 60⌋) := by
  unfold format_timestamp
  rw [show (pyfloordiv s 3600) = ((⌊s / 3600⌋ : ℤ) : ℚ) from rfl, pyint_intCast,
    pyint_pyfloordiv_pymod,
    show ((60 : ℚ)) = ((60 : ℕ) : ℚ) by norm_num,
    pyint_pymod s 60 (by norm_num)]
  norm_num

/-- Closed form of `format_duration`. -/
theorem format_duration_eq (s : ℚ) :
    format_duration s =
      if 0 < ⌊s / 60⌋ then
        toString ⌊s / 60⌋ ++ "分" ++ toString (⌊s⌋ - 60 * ⌊s / 60⌋) ++ "秒"
      else toString (⌊s⌋ - 60 * ⌊s / 60⌋) ++ "秒" := by
  unfold format_duration
  rw [show (pyfloordiv s 60) = ((⌊s / 60⌋ : ℤ) : ℚ) from rfl, pyint_intCast,
    show ((60 : ℚ)) = ((60 : ℕ) : ℚ) by norm_num,
    pyint_pymod s 60 (by norm_num)]
  norm_num

/-- `format_timestamp` truncates to whole seconds. -/
theorem format_timestamp_floor (s : ℚ) (hs : 0 ≤ s) :
    format_timestamp s = format_timestamp ((⌊s⌋ : ℤ) : ℚ) := by
  have hs' : (0:ℚ) ≤ ((⌊s⌋ : ℤ) : ℚ) := by
    exact_mod_cast Int.floor_nonneg.2 hs
  rw [format_timestamp_eq s, format_timestamp_eq _,
    show ((3600:ℚ)) = ((3600 : ℕ) : ℚ) by norm_num,
    show ((60:ℚ)) = ((60 : ℕ) : ℚ) by norm_num,
    floor_intCast_floor_div s hs 3600, floor_intCast_floor_div s hs 60,
    Int.floor_intCast]

/-- `format_duration` truncates to whole seconds. -/
theorem format_duration_floor (s : ℚ) (hs : 0 ≤ s) :
    format_duration s = format_duration ((⌊s⌋ : ℤ) : ℚ) := by
  have hs' : (0:ℚ) ≤ ((⌊s⌋ : ℤ) : ℚ) := by
    exact_mod_cast Int.floor_nonneg.2 hs
  rw [format_duration_eq s, format_duration_eq _,
    show ((60:ℚ)) = ((60 : ℕ) : ℚ) by norm_num,
    floor_intCast_floor_div s hs 60, Int.floor_intCast]

/-- `format_timestamp` on a whole number of seconds, in `ℕ` arithmetic. -/
theorem format_timestamp_natCast (n : ℕ) :
    format_timestamp (n : ℚ) =
      pad2 (n / 3600 : ℕ) ++ ":" ++ pad2 (n % 3600 / 60 : ℕ) ++ ":" ++ pad2 (n % 60 : ℕ) := by
  have hs : (0:ℚ) ≤ (n : ℚ) := by positivity
  rw [format_timestamp_eq _]
  have h3600 : ⌊(n : ℚ) / 3600⌋ = ((n / 3600 : ℕ) : ℤ) := by
    rw [show ((3600:ℚ)) = ((3600 : ℕ) : ℚ) by norm_num,
      ← Int.natCast_floor_eq_floor (div_nonneg hs (by positivity)), Nat.floor_div_eq_div]
  have h60 : ⌊(n : ℚ) / 60⌋ = ((n / 60 : ℕ) : ℤ) := by
    rw [show ((60:ℚ)) = ((60 : ℕ) : ℚ) by norm_num,
      ← Int.natCast_floor_eq_floor (div_nonneg hs (by positivity)), Nat.floor_div_eq_div]
  rw [h3600, h60, Int.floor_natCast]
  have e1 : ((n / 60 : ℕ) : ℤ) - 60 * ((n / 3600 : ℕ) : ℤ) = ((n % 3600 / 60 : ℕ) : ℤ) := by
    omega
  have e2 : ((n : ℕ) : ℤ) - 60 * ((n / 60 : ℕ) : ℤ) = ((n % 60 : ℕ) : ℤ) := by
    omega
  rw [e1, e2]

/-- `format_duration` on a whole number of seconds, in `ℕ` arithmetic. -/
theorem format_duration_natCast (n : ℕ) :
    format_duration (n : ℚ) =
      if 0 < n / 60 then
        toString (n / 60 : ℕ) ++ "分" ++ toString (n % 60 : ℕ) ++ "秒"
      else toString (n % 60 : ℕ) ++ "秒" := by
  have hs : (0:ℚ) ≤ (n : ℚ) := by positivity
  rw [format_duration_eq _]
  have h60 : ⌊(n : ℚ) / 60⌋ = ((n / 60 : ℕ) : ℤ) := by
    rw [show ((60:ℚ)) = ((60 : ℕ) : ℚ) by norm_num,
      ← Int.natCast_floor_eq_floor (div_nonneg hs (by positivity)), Nat.floor_div_eq_div]
  have e2 : ((n : ℕ) : ℤ) - 60 * ((n / 60 : ℕ) : ℤ) = ((n % 60 : ℕ) : ℤ) := by
    omega
  rw [h60, Int.floor_natCast, e2]
  have hts : ∀ m : ℕ, toString ((m : ℕ) : ℤ) = toString m := fun m => rfl
  rw [hts, hts]
  have hiff : (0:ℤ) < ((n / 60 : ℕ) : ℤ) ↔ 0 < n / 60 := by omega
  by_cases hc : 0 < n / 60
  · rw [if_pos (hiff.2 hc), if_pos hc]
  · rw [if_neg (fun h => hc (hiff.1 h)), if_neg hc]

example : format_timestamp ((3661 : ℕ) : ℚ) = "01:01:01" := by
  rw [format_timestamp_natCast]; decide

example : format_duration ((125 : ℕ) : ℚ) = "2分5秒" := by
  rw [format_duration_natCast]; decide

/-! ### Data model: transcription segments and results -/

/-- One timed text segment of the transcription (`seg["start"]`,
`seg["end"]`, `seg["text"]` in src/main.py). -/
structure Segment where
  start : ℚ
  «end» : ℚ
  text : String
deriving DecidableEq

/-- The Whisper transcription result dict as consumed by
`generate_markdown`: `result.get("language", "unknown")` and
`result.get("segments", [])`, so both keys are modelled as optional. -/
structure TranscriptionResult where
  language? : Option String
  segments? : Option (List Segment)
deriving DecidableEq

/-- Model of Python's `text.replace("|", "\\|")` for the single-character
pattern `"|"`: each `'|'` becomes the two characters `'\'`, `'|'`. -/
def escapePipes (s : String) : String :=
  String.mk (s.data.flatMap fun c => if c = '|' then ['\\', '|'] else [c])

/-- Model of Python's slice `s[:n]`: the first `n` characters
(code points). -/
def pySlice (s : String) (n : ℕ) : String :=
  String.mk (s.data.take n)

/-- Model of Python's `str.strip()`: remove leading and trailing
whitespace characters. -/
def pyStrip (s : String) : String :=
  String.mk (((s.data.dropWhile Char.isWhitespace).reverse.dropWhile
    Char.isWhitespace).reverse)

/-- `generate_markdown` from src/main.py.  `video_stem` stands for
`video_path.stem` (the only use of the path), and `now` for the string
`datetime.now().strftime('%Y-%m-%d %H:%M:%S')` read inside the function;
Python's `str.strip()` is modelled by `pyStrip`. -/
def generate_markdown (result : TranscriptionResult) (video_stem : String)
    (video_duration : ℚ) (now : String) : String :=
  let title := video_stem
  let detected_language := result.language?.getD "unknown"
  let segments := result.segments?.getD []
  let lines : List String := [
    "# " ++ title,
    "",
    "> 📅 生成时间: " ++ now,
    "> 🎬 视频时长: " ++ format_duration video_duration,
    "> 🌐 检测语言: " ++ detected_language,
    "> 🤖 转录模型: Whisper",
    "",
    "---",
    "",
    "## 转录内容",
    ""]
  let lines := segments.foldl (fun ls seg =>
    let start := format_timestamp seg.start
    let «end» := format_timestamp seg.«end»
    let text := (pyStrip seg.text)
    ls ++ ["**[" ++ start ++ " → " ++ «end» ++ "]**", text, ""]) lines
  let lines := lines ++ [
    "---",
    "",
    "## 附录：完整时间轴",
    "",
    "| 时间 | 内容 |",
    "|------|------|"]
  let lines := segments.foldl (fun ls seg =>
    let start := format_timestamp seg.start
    let text := escapePipes (pyStrip seg.text)
    let text := if 80 < text.length then pySlice text 77 ++ "..." else text
    ls ++ ["| " ++ start ++ " | " ++ text ++ " |"]) lines
  let lines := lines ++ [""]
  String.intercalate "\n" lines

/-! ### Structural decomposition of the generated document -/

/-- The header block of the generated document (lines before the body). -/
def headerLines (title now : String) (video_duration : ℚ) (lang : String) : List String :=
  ["# " ++ title,
   "",
   "> 📅 生成时间: " ++ now,
   "> 🎬 视频时长: " ++ format_duration video_duration,
   "> 🌐 检测语言: " ++ lang,
   "> 🤖 转录模型: Whisper",
   "",
   "---",
   "",
   "## 转录内容",
   ""]

/-- The three body lines emitted for one segment. -/
def bodyBlock (seg : Segment) : List String :=
  ["**[" ++ format_timestamp seg.start ++ " → " ++ format_timestamp seg.«end» ++ "]**",
   (pyStrip seg.text),
   ""]

/-- The fixed lines introducing the appendix table. -/
def appendixHeaderLines : List String :=
  ["---",
   "",
   "## 附录：完整时间轴",
   "",
   "| 时间 | 内容 |",
   "|------|------|"]

/-- The text cell of a segment's appendix table row: trimmed,
pipe-escaped, truncated to 77 characters plus `"..."` when longer than
80 characters. -/
def appendixCell (seg : Segment) : String :=
  let text := escapePipes (pyStrip seg.text)
  if 80 < text.length then pySlice text 77 ++ "..." else text

/-- One appendix table row. -/
def appendixRow (seg : Segment) : String :=
  "| " ++ format_timestamp seg.start ++ " | " ++ appendixCell seg ++ " |"

/-- The generated document as a list of lines. -/
def markdownLines (result : TranscriptionResult) (video_stem : String)
    (video_duration : ℚ) (now : String) : List String :=
  headerLines video_stem now video_duration (result.language?.getD "unknown")
    ++ (result.segments?.getD []).flatMap bodyBlock
    ++ appendixHeaderLines
    ++ (result.segments?.getD []).map appendixRow
    ++ [""]

theorem foldl_append_blocks {α β : Type} (f : α → List β) :
    ∀ (l : List α) (acc : List β),
      l.foldl (fun ls x => ls ++ f x) acc = acc ++ l.flatMap f
  | [], acc => by simp
  | x :: xs, acc => by
    simp [List.foldl_cons, foldl_append_blocks f xs]

/-- `generate_markdown` produces exactly the lines of `markdownLines`,
joined by newlines. -/
theorem generate_markdown_eq (result : TranscriptionResult) (video_stem : String)
    (video_duration : ℚ) (now : String) :
    generate_markdown result video_stem video_duration now =
      String.intercalate "\n" (markdownLines result video_stem video_duration now) := by
  unfold generate_markdown markdownLines
  have h1 : (fun (ls : List String) (seg : Segment) =>
      let start := format_timestamp seg.start
      let «end» := format_timestamp seg.«end»
      let text := (pyStrip seg.text)
      ls ++ ["**[" ++ start ++ " → " ++ «end» ++ "]**", text, ""]) =
      fun ls seg => ls ++ bodyBlock seg := rfl
  have h2 : (fun (ls : List String) (seg : Segment) =>
      let start := format_timestamp seg.start
      let text := escapePipes (pyStrip seg.text)
      let text := if 80 < text.length then pySlice text 77 ++ "..." else text
      ls ++ ["| " ++ start ++ " | " ++ text ++ " |"]) =
      fun ls seg => ls ++ ["| " ++ format_timestamp seg.start ++ " | "
        ++ appendixCell seg ++ " |"] := rfl
  rw [h1, h2]
  dsimp only
  rw [foldl_append_blocks, foldl_append_blocks]
  have h3 : ∀ (l : List Segment) (f : Segment → String),
      (l.flatMap fun x => [f x]) = l.map f := by
    intro l f
    induction l with
    | nil => simp
    | cons x xs ih => simp [ih]
  rw [h3]
  rfl

/-! ### Escaping invariant: no unescaped pipe in an appendix cell -/

/-- `noBarePipeFrom prev cs` holds when every `'|'` in `cs` is directly
preceded by a `'\'` (`prev` being the character just before `cs`). -/
def noBarePipeFrom (prev : Char) : List Char → Bool
  | [] => true
  | c :: rest => ((c != '|') || (prev == '\\')) && noBarePipeFrom c rest

/-- Every `'|'` in the list is directly preceded by a `'\'`. -/
def noBarePipe (cs : List Char) : Bool :=
  noBarePipeFrom ' ' cs

theorem noBarePipeFrom_escapePipes (cs : List Char) :
    ∀ prev, noBarePipeFrom prev
      (cs.flatMap fun c => if c = '|' then ['\\', '|'] else [c]) = true := by
  induction cs with
  | nil => intro prev; rfl
  | cons c rest ih =>
    intro prev
    by_cases hc : c = '|'
    · subst hc
      have hstep : (('|' :: rest).flatMap fun c => if c = '|' then ['\\', '|'] else [c])
          = '\\' :: '|' :: (rest.flatMap fun c => if c = '|' then ['\\', '|'] else [c]) := by
        rw [List.flatMap_cons, if_pos rfl]
        rfl
      rw [hstep]
      simp only [noBarePipeFrom, ih '|']
      simp
    · have hstep : ((c :: rest).flatMap fun d => if d = '|' then ['\\', '|'] else [d])
          = c :: (rest.flatMap fun d => if d = '|' then ['\\', '|'] else [d]) := by
        rw [List.flatMap_cons, if_neg hc]
        rfl
      rw [hstep]
      simp only [noBarePipeFrom, ih c]
      have hbne : (c != '|') = true := by simpa using hc
      simp [hbne]

theorem noBarePipeFrom_take :
    ∀ (cs : List Char) (n : ℕ) (prev : Char), noBarePipeFrom prev cs = true →
      noBarePipeFrom prev (cs.take n) = true
  | [], n, prev, _ => by simp [List.take_nil]; rfl
  | c :: rest, 0, prev, _ => rfl
  | c :: rest, n + 1, prev, h => by
    simp only [List.take_succ_cons, noBarePipeFrom, Bool.and_eq_true] at h ⊢
    exact ⟨h.1, noBarePipeFrom_take rest n c h.2⟩

theorem noBarePipeFrom_of_no_pipe :
    ∀ (cs : List Char) (prev : Char), (∀ c ∈ cs, c ≠ '|') →
      noBarePipeFrom prev cs = true
  | [], _, _ => rfl
  | c :: rest, prev, h => by
    simp only [noBarePipeFrom, Bool.and_eq_true]
    constructor
    · have hc := h c (List.mem_cons_self c rest)
      simp [hc]
    · exact noBarePipeFrom_of_no_pipe rest c fun d hd => h d (List.mem_cons_of_mem c hd)

theorem noBarePipeFrom_append :
    ∀ (cs tail : List Char) (prev : Char), noBarePipeFrom prev cs = true →
      (∀ c ∈ tail, c ≠ '|') → noBarePipeFrom prev (cs ++ tail) = true
  | [], tail, prev, _, htail => by
    simpa using noBarePipeFrom_of_no_pipe tail prev htail
  | c :: rest, tail, prev, h, htail => by
    simp only [List.cons_append, noBarePipeFrom, Bool.and_eq_true] at h ⊢
    exact ⟨h.1, noBarePipeFrom_append rest tail c h.2 htail⟩

/-- The text cell of every appendix row contains no unescaped `'|'`:
every pipe character in it is directly preceded by a backslash. -/
theorem appendixCell_noBarePipe (seg : Segment) :
    noBarePipe (appendixCell seg).data = true := by
  unfold appendixCell noBarePipe
  have hesc : noBarePipeFrom ' ' (escapePipes (pyStrip seg.text)).data = true := by
    unfold escapePipes
    exact noBarePipeFrom_escapePipes (pyStrip seg.text).data ' '
  dsimp only
  split
  · have hdata : (pySlice (escapePipes (pyStrip seg.text)) 77 ++ "...").data
        = (escapePipes (pyStrip seg.text)).data.take 77 ++ ['.', '.', '.'] := by
      rfl
    rw [hdata]
    refine noBarePipeFrom_append _ _ _ (noBarePipeFrom_take _ 77 _ hesc) ?_
    intro c hc
    simp only [List.mem_cons, List.not_mem_nil, or_false] at hc
    rcases hc with h | h | h <;> (subst h; decide)
  · exact hesc

/-! ### Length of the appendix cell -/

theorem length_escapePipes_data (s : String) :
    (escapePipes s).length = (escapePipes s).data.length := rfl

/-- The appendix cell is the escaped text itself when that text has at
most 80 characters, and an exactly-80-character truncation otherwise. -/
theorem appendixCell_cases (seg : Segment) :
    (appendixCell seg = escapePipes (pyStrip seg.text)
        ∧ (appendixCell seg).length ≤ 80)
    ∨ (appendixCell seg = pySlice (escapePipes (pyStrip seg.text)) 77 ++ "..."
        ∧ (appendixCell seg).length = 80) := by
  unfold appendixCell
  by_cases h : 80 < (escapePipes (pyStrip seg.text)).length
  · right
    rw [if_pos h]
    refine ⟨rfl, ?_⟩
    have hdata : (pySlice (escapePipes (pyStrip seg.text)) 77 ++ "...").length
        = ((escapePipes (pyStrip seg.text)).data.take 77).length + 3 := by
      rw [String.length_append]
      rfl
    rw [hdata, List.length_take]
    have : 77 ≤ (escapePipes (pyStrip seg.text)).data.length := by
      have := h
      rw [length_escapePipes_data] at this
      omega
    omega
  · left
    rw [if_neg h]
    exact ⟨rfl, by omega⟩

/-! ### Duration probe -/

/-- Splits a list at the first character satisfying `p`: returns the
prefix before it and, when found, the remainder after it. -/
def splitFirst (p : Char → Bool) : List Char → List Char × Option (List Char)
  | [] => ([], none)
  | c :: rest =>
    if p c then ([], some rest)
    else
      let r := splitFirst p rest
      (c :: r.1, r.2)

/-- The value of a list of decimal digits; `none` if any character is
not a digit.  The empty list yields `0` (callers guard emptiness). -/
def decDigits? (cs : List Char) : Option ℕ :=
  cs.foldl
    (fun acc c => acc.bind fun n =>
      if c.isDigit then some (10 * n + (c.toNat - '0'.toNat)) else none)
    (some 0)

/-- Modelled from Python's builtin `float()` as applied to the stripped
ffprobe stdout, restricted to finite decimal literals: optional sign,
digits with optional fractional part, optional exponent.  Strings
outside this fragment — in particular empty and non-numeric output —
fail to parse (`none`), which is the `ValueError` branch of
`get_video_duration`. -/
def pyFloat? (s : String) : Option ℚ :=
  let signRest : ℚ × List Char :=
    match s.data with
    | '+' :: rest => (1, rest)
    | '-' :: rest => (-1, rest)
    | cs => (1, cs)
  let mantExp := splitFirst (fun c => c == 'e' || c == 'E') signRest.2
  let intFrac := splitFirst (fun c => c == '.') mantExp.1
  let fracChars := (intFrac.2).getD []
  if intFrac.1.isEmpty && fracChars.isEmpty then none
  else
    match decDigits? intFrac.1, decDigits? fracChars with
    | some ip, some fp =>
      let mant : ℚ := signRest.1 * ((ip : ℚ) + (fp : ℚ) / ((10 : ℚ) ^ fracChars.length))
      match mantExp.2 with
      | none => some mant
      | some ecs =>
        let eSignRest : ℤ × List Char :=
          match ecs with
          | '+' :: rest => (1, rest)
          | '-' :: rest => (-1, rest)
          | ds => (1, ds)
        if eSignRest.2.isEmpty then none
        else
          match decDigits? eSignRest.2 with
          | some ev => some (mant * (10 : ℚ) ^ (eSignRest.1 * (ev : ℤ)))
          | none => none
    | _, _ => none

/-- `get_video_duration` from src/main.py, with the ffprobe call
abstracted by its captured `stdout`/`stderr`, with Python's
`str.strip()` modelled by `pyStrip`.  Returns the duration together with the
warning lines printed on the `ValueError` branch. -/
def get_video_duration (video_path : String) (stdout stderr : String) :
    ℚ × List String :=
  match pyFloat? (pyStrip stdout) with
  | some v => (v, [])
  | none =>
    ((0 : ℚ),
      ["[警告] 无法解析视频时长，返回 0.0 作为默认值。视频文件: " ++ video_path]
        ++ (if (pyStrip stdout) ≠ "" then ["[警告] ffprobe 标准输出: " ++ (pyStrip stdout)] else [])
        ++ (if (pyStrip stderr) ≠ "" then ["[警告] ffprobe 错误输出: " ++ (pyStrip stderr)] else []))

/-! ### Pipeline orchestrator (`main` from src/main.py)

The external collaborators are abstracted by an environment recording
their outcomes; the `try`/`finally` block is modelled structurally: a
body producing an exit kind, and a cleanup applied to the resulting
filesystem state no matter how the body exited. -/

instance {ε α : Type} [DecidableEq ε] [DecidableEq α] :
    DecidableEq (Except ε α) := fun x y =>
  match x, y with
  | .error a, .error b =>
    if h : a = b then .isTrue (by rw [h]) else .isFalse (by simp [h])
  | .ok a, .ok b =>
    if h : a = b then .isTrue (by rw [h]) else .isFalse (by simp [h])
  | .error _, .ok _ => .isFalse (by simp)
  | .ok _, .error _ => .isFalse (by simp)

/-- Outcomes of the external collaborators for one run. -/
structure Env where
  /-- `args.video.resolve().exists()` -/
  video_exists : Bool
  /-- captured stdout of the ffprobe call -/
  probe_stdout : String
  /-- captured stderr of the ffprobe call -/
  probe_stderr : String
  /-- whether the ffmpeg call returned with code 0 (`extract_audio` result) -/
  extract_ok : Bool
  /-- result of `transcribe_audio`, or the exception it raised -/
  transcribe : Except String TranscriptionResult
  /-- whether step 3 (generating and writing the document) completed
  without raising (e.g. `output_path.write_text` may raise `OSError`) -/
  write_ok : Bool
deriving DecidableEq

/-- Filesystem/progress state threaded through the `try` body. -/
structure PipeState where
  /-- the temporary audio file currently exists on disk -/
  tmp_exists : Bool
  /-- `transcribe_audio` has been invoked -/
  transcribe_invoked : Bool
  /-- the output document has been written -/
  output_written : Bool
deriving DecidableEq

/-- How the `try` body exited. -/
inductive BodyExit where
  /-- fell through normally -/
  | normal
  /-- `sys.exit(code)` was called (raises `SystemExit`) -/
  | sysExit (code : ℕ)
  /-- some other exception was raised -/
  | exc
deriving DecidableEq

/-- The `try` block of `main`: steps 1/3 (extract), 2/3 (transcribe),
3/3 (generate and write). -/
def pipeline_body (env : Env) (st : PipeState) : BodyExit × PipeState :=
  if !env.extract_ok then
    (.sysExit 1, st)
  else
    let st := { st with transcribe_invoked := true }
    match env.transcribe with
    | .error _ => (.exc, st)
    | .ok _result =>
      if env.write_ok then (.normal, { st with output_written := true })
      else (.exc, st)

/-- The `finally` block of `main`:
`if audio_path.exists(): audio_path.unlink()`. -/
def cleanup (st : PipeState) : PipeState :=
  if st.tmp_exists then { st with tmp_exists := false } else st

/-- Process outcome of one run. -/
inductive Outcome where
  /-- the process terminated with this exit status (`0` for a normal
  return from `main`, the argument of `sys.exit` otherwise) -/
  | exited (code : ℕ)
  /-- an exception propagated out of `main` uncaught (the interpreter
  then terminates with a non-zero status) -/
  | raised
deriving DecidableEq

/-- Observable result of one pipeline run. -/
structure RunResult where
  outcome : Outcome
  /-- the temporary audio path was acquired during the run -/
  tmp_acquired : Bool
  /-- the temporary audio file exists after the run -/
  tmp_exists : Bool
  transcribe_invoked : Bool
  output_written : Bool
  /-- the duration value the run used, once probed -/
  used_duration : Option ℚ
  /-- warning lines emitted by the duration probe -/
  warnings : List String
deriving DecidableEq

/-- `main` from src/main.py over an environment of external outcomes.
Path resolution and CLI parsing are out of scope; `video_path` is the
resolved input path as a string. -/
def run_main (env : Env) (video_path : String) : RunResult :=
  if !env.video_exists then
    { outcome := .exited 1, tmp_acquired := false, tmp_exists := false,
      transcribe_invoked := false, output_written := false,
      used_duration := none, warnings := [] }
  else
    let probed := get_video_duration video_path env.probe_stdout env.probe_stderr
    -- `tempfile.NamedTemporaryFile(suffix=".wav", delete=False)`:
    -- the temporary file is created and survives the `with` block
    let st0 : PipeState :=
      { tmp_exists := true, transcribe_invoked := false, output_written := false }
    let bodyRes := pipeline_body env st0
    let finalSt := cleanup bodyRes.2
    { outcome :=
        match bodyRes.1 with
        | .normal => .exited 0
        | .sysExit code => .exited code
        | .exc => .raised,
      tmp_acquired := true,
      tmp_exists := finalSt.tmp_exists,
      transcribe_invoked := bodyRes.2.transcribe_invoked,
      output_written := bodyRes.2.output_written,
      used_duration := some probed.1,
      warnings := probed.2 }

/-! ### Claim theorems -/

/-- C5: for every non-negative number of seconds, `format_timestamp`
truncates to whole seconds and emits a zero-padded `HH:MM:SS` string
with unbounded hours: `format_timestamp 0 = "00:00:00"`,
`format_timestamp 3661 = "01:01:01"`, and 90000 seconds render as
`"25:00:00"` (no 24-hour wraparound).  Totality on all rational inputs
holds by construction. -/
theorem c5_clock_format :
    (∀ s : ℚ, 0 ≤ s → format_timestamp s = format_timestamp ((⌊s⌋ : ℤ) : ℚ))
    ∧ format_timestamp 0 = "00:00:00"
    ∧ format_timestamp 3661 = "01:01:01"
    ∧ format_timestamp 90000 = "25:00:00" := by
  refine ⟨format_timestamp_floor, ?_, ?_, ?_⟩
  · rw [show (0 : ℚ) = ((0 : ℕ) : ℚ) by norm_num, format_timestamp_natCast]
    decide
  · rw [show (3661 : ℚ) = ((3661 : ℕ) : ℚ) by norm_num, format_timestamp_natCast]
    decide
  · rw [show (90000 : ℚ) = ((90000 : ℕ) : ℚ) by norm_num, format_timestamp_natCast]
    decide

/-- Witness for C5 at the fractional input 3661.5 seconds. -/
theorem c5_clock_format_witness :
    (0 : ℚ) ≤ 7323 / 2
    ∧ format_timestamp (7323 / 2) = format_timestamp ((⌊(7323 / 2 : ℚ)⌋ : ℤ) : ℚ) :=
  ⟨by norm_num, c5_clock_format.1 (7323 / 2) (by norm_num)⟩

/-- C6: for every non-negative number of seconds, `format_duration`
truncates fractional seconds and emits a minutes-plus-seconds label
exactly when the whole-minute count is positive, otherwise a
seconds-only label; `format_duration 45 = "45秒"` and
`format_duration 125 = "2分5秒"`. -/
theorem c6_human_duration :
    (∀ s : ℚ, 0 ≤ s → format_duration s = format_duration ((⌊s⌋ : ℤ) : ℚ))
    ∧ (∀ n : ℕ, 0 < n / 60 →
        format_duration (n : ℚ) = toString (n / 60) ++ "分" ++ toString (n % 60) ++ "秒")
    ∧ (∀ n : ℕ, n / 60 = 0 →
        format_duration (n : ℚ) = toString (n % 60) ++ "秒")
    ∧ format_duration 45 = "45秒"
    ∧ format_duration 125 = "2分5秒" := by
  refine ⟨format_duration_floor, ?_, ?_, ?_, ?_⟩
  · intro n hn
    rw [format_duration_natCast, if_pos hn]
  · intro n hn
    rw [format_duration_natCast, if_neg (by omega)]
  · rw [show (45 : ℚ) = ((45 : ℕ) : ℚ) by norm_num, format_duration_natCast]
    decide
  · rw [show (125 : ℚ) = ((125 : ℕ) : ℚ) by norm_num, format_duration_natCast]
    decide

/-- Witness for C6 at 125.5 seconds, at 125 whole seconds (minutes
label), and at 45 whole seconds (seconds-only label). -/
theorem c6_human_duration_witness :
    ((0 : ℚ) ≤ 251 / 2
      ∧ format_duration (251 / 2) = format_duration ((⌊(251 / 2 : ℚ)⌋ : ℤ) : ℚ))
    ∧ (0 < 125 / 60
      ∧ format_duration ((125 : ℕ) : ℚ)
          = toString (125 / 60) ++ "分" ++ toString (125 % 60) ++ "秒")
    ∧ (45 / 60 = 0
      ∧ format_duration ((45 : ℕ) : ℚ) = toString (45 % 60) ++ "秒") :=
  ⟨⟨by norm_num, c6_human_duration.1 (251 / 2) (by norm_num)⟩,
   ⟨by decide, c6_human_duration.2.1 125 (by decide)⟩,
   ⟨by decide, c6_human_duration.2.2.1 45 (by decide)⟩⟩

/-- C9: the document generator is deterministic in
(result, title, duration, timestamp): for any two generation
timestamps, the two generated documents consist of the same lines
except for the embedded generation-timestamp line (line 3 of the
header). -/
theorem c9_generator_deterministic (result : TranscriptionResult)
    (video_stem : String) (video_duration : ℚ) (now1 now2 : String) :
    ∃ pre post : List String,
      generate_markdown result video_stem video_duration now1
          = String.intercalate "\n" (pre ++ ("> 📅 生成时间: " ++ now1) :: post)
        ∧ generate_markdown result video_stem video_duration now2
          = String.intercalate "\n" (pre ++ ("> 📅 生成时间: " ++ now2) :: post) := by
  refine ⟨["# " ++ video_stem, ""],
    ["> 🎬 视频时长: " ++ format_duration video_duration,
     "> 🌐 检测语言: " ++ result.language?.getD "unknown",
     "> 🤖 转录模型: Whisper", "", "---", "", "## 转录内容", ""]
      ++ (result.segments?.getD []).flatMap bodyBlock
      ++ appendixHeaderLines
      ++ (result.segments?.getD []).map appendixRow
      ++ [""], ?_, ?_⟩
  · rw [generate_markdown_eq]
    simp [markdownLines, headerLines]
  · rw [generate_markdown_eq]
    simp [markdownLines, headerLines]

/-- C2: for a transcription result whose segments are sorted by start
time, the generated document is exactly the header, one body block per
segment in input order, the appendix table header, one appendix row per
segment in input order, and a final blank line — so exactly N body
blocks (3 lines each) and exactly N appendix rows, with no reordering
or merging. -/
theorem c2_blocks_and_rows (result : TranscriptionResult) (video_stem : String)
    (video_duration : ℚ) (now : String)
    (hsorted : (result.segments?.getD []).Pairwise fun a b => a.start ≤ b.start) :
    generate_markdown result video_stem video_duration now
      = String.intercalate "\n"
          (headerLines video_stem now video_duration (result.language?.getD "unknown")
            ++ (result.segments?.getD []).flatMap bodyBlock
            ++ appendixHeaderLines
            ++ (result.segments?.getD []).map appendixRow
            ++ [""])
    ∧ ((result.segments?.getD []).flatMap bodyBlock).length
        = 3 * (result.segments?.getD []).length
    ∧ ((result.segments?.getD []).map appendixRow).length
        = (result.segments?.getD []).length := by
  refine ⟨generate_markdown_eq result video_stem video_duration now, ?_, ?_⟩
  · have h3 : ∀ l : List Segment, (l.flatMap bodyBlock).length = 3 * l.length := by
      intro l
      induction l with
      | nil => rfl
      | cons x xs ih =>
        rw [List.flatMap_cons, List.length_append, ih]
        have : (bodyBlock x).length = 3 := rfl
        rw [this, List.length_cons]
        ring
    exact h3 _
  · exact List.length_map _ _

/-- Two sample segments with sorted start times. -/
def segA : Segment := ⟨0, 2, " hello "⟩

/-- Second sample segment; its text contains a pipe. -/
def segB : Segment := ⟨2, 4, "wor|ld"⟩

/-- A sample transcription result with two sorted segments. -/
def sampleResult : TranscriptionResult := ⟨some "zh", some [segA, segB]⟩

/-- Witness for C2 on a concrete two-segment result. -/
theorem c2_blocks_and_rows_witness :
    ((sampleResult.segments?.getD []).Pairwise fun a b => a.start ≤ b.start)
    ∧ (generate_markdown sampleResult "video" 4 "2026-10-12 00:00:00"
        = String.intercalate "\n"
            (headerLines "video" "2026-10-12 00:00:00" 4 (sampleResult.language?.getD "unknown")
              ++ (sampleResult.segments?.getD []).flatMap bodyBlock
              ++ appendixHeaderLines
              ++ (sampleResult.segments?.getD []).map appendixRow
              ++ [""])
      ∧ ((sampleResult.segments?.getD []).flatMap bodyBlock).length
          = 3 * (sampleResult.segments?.getD []).length
      ∧ ((sampleResult.segments?.getD []).map appendixRow).length
          = (sampleResult.segments?.getD []).length) :=
  ⟨by decide,
   c2_blocks_and_rows sampleResult "video" 4 "2026-10-12 00:00:00" (by decide)⟩

/-- C3: for every segment of the transcription result, the body carries
the trimmed text untruncated, the appendix carries the segment's row,
and the appendix cell is the escaped text truncated to its first 77
characters plus an ellipsis marker exactly when its length exceeds 80
characters. -/
theorem c3_truncation_appendix_only (result : TranscriptionResult)
    (video_stem : String) (video_duration : ℚ) (now : String) (seg : Segment)
    (hmem : seg ∈ result.segments?.getD []) :
    (pyStrip seg.text) ∈ markdownLines result video_stem video_duration now
    ∧ appendixRow seg ∈ markdownLines result video_stem video_duration now
    ∧ (80 < (escapePipes (pyStrip seg.text)).length →
        appendixCell seg = pySlice (escapePipes (pyStrip seg.text)) 77 ++ "...")
    ∧ ((escapePipes (pyStrip seg.text)).length ≤ 80 →
        appendixCell seg = escapePipes (pyStrip seg.text)) := by
  refine ⟨?_, ?_, ?_, ?_⟩
  · have h1 : (pyStrip seg.text) ∈ (result.segments?.getD []).flatMap bodyBlock :=
      List.mem_flatMap.2 ⟨seg, hmem, by simp [bodyBlock]⟩
    simp [markdownLines, List.mem_append, h1]
  · have h1 : appendixRow seg ∈ (result.segments?.getD []).map appendixRow :=
      List.mem_map.2 ⟨seg, hmem, rfl⟩
    simp [markdownLines, List.mem_append, h1]
  · intro h
    unfold appendixCell
    dsimp only
    rw [if_pos h]
  · intro h
    unfold appendixCell
    dsimp only
    rw [if_neg (by omega)]

/-- A segment whose text is 85 characters long. -/
def seg85 : Segment := ⟨0, 1, String.mk (List.replicate 85 'a')⟩

/-- A transcription result holding only `seg85`. -/
def result85 : TranscriptionResult := ⟨some "en", some [seg85]⟩

/-- Witness for C3: the 85-character text is truncated to 77 characters
plus `"..."` in the appendix cell but appears verbatim in the body. -/
theorem c3_truncation_witness :
    seg85 ∈ result85.segments?.getD []
    ∧ ((pyStrip seg85.text) ∈ markdownLines result85 "v" 1 "t"
      ∧ appendixRow seg85 ∈ markdownLines result85 "v" 1 "t"
      ∧ (80 < (escapePipes (pyStrip seg85.text)).length →
          appendixCell seg85 = pySlice (escapePipes (pyStrip seg85.text)) 77 ++ "...")
      ∧ ((escapePipes (pyStrip seg85.text)).length ≤ 80 →
          appendixCell seg85 = escapePipes (pyStrip seg85.text)))
    ∧ appendixCell seg85 = String.mk (List.replicate 77 'a') ++ "..."
    ∧ (pyStrip seg85.text) = seg85.text
    ∧ seg85.text.length = 85 :=
  ⟨by decide, c3_truncation_appendix_only result85 "v" 1 "t" seg85 (by decide),
   by decide, by decide, by decide⟩

/-- C4: for every segment, the body renders the trimmed text as-is
(pipes unescaped), while in the appendix cell every `'|'` is preceded
by a backslash; when no truncation applies, the cell is exactly the
pipe-escaped trimmed text. -/
theorem c4_pipe_escaping (result : TranscriptionResult)
    (video_stem : String) (video_duration : ℚ) (now : String) (seg : Segment)
    (hmem : seg ∈ result.segments?.getD []) :
    (pyStrip seg.text) ∈ markdownLines result video_stem video_duration now
    ∧ appendixRow seg ∈ markdownLines result video_stem video_duration now
    ∧ noBarePipe (appendixCell seg).data = true
    ∧ ((escapePipes (pyStrip seg.text)).length ≤ 80 →
        appendixCell seg = escapePipes (pyStrip seg.text)) := by
  refine ⟨?_, ?_, appendixCell_noBarePipe seg, ?_⟩
  · have h1 : (pyStrip seg.text) ∈ (result.segments?.getD []).flatMap bodyBlock :=
      List.mem_flatMap.2 ⟨seg, hmem, by simp [bodyBlock]⟩
    simp [markdownLines, List.mem_append, h1]
  · have h1 : appendixRow seg ∈ (result.segments?.getD []).map appendixRow :=
      List.mem_map.2 ⟨seg, hmem, rfl⟩
    simp [markdownLines, List.mem_append, h1]
  · intro h
    unfold appendixCell
    dsimp only
    rw [if_neg (by omega)]

/-- Witness for C4: the text `"wor|ld"` (segment `segB` of
`sampleResult`) has its pipe escaped in the appendix cell and is
verbatim in the body. -/
theorem c4_pipe_escaping_witness :
    segB ∈ sampleResult.segments?.getD []
    ∧ ((pyStrip segB.text) ∈ markdownLines sampleResult "video" 4 "t"
      ∧ appendixRow segB ∈ markdownLines sampleResult "video" 4 "t"
      ∧ noBarePipe (appendixCell segB).data = true
      ∧ ((escapePipes (pyStrip segB.text)).length ≤ 80 →
          appendixCell segB = escapePipes (pyStrip segB.text)))
    ∧ appendixCell segB = "wor\\|ld"
    ∧ (pyStrip segB.text) = "wor|ld" :=
  ⟨by decide, c4_pipe_escaping sampleResult "video" 4 "t" segB (by decide),
   by decide, by decide⟩

/-- C10: every appendix cell is at most 80 characters long: it is
either the escaped trimmed text itself (of length at most 80), or the
77-character prefix followed by the 3-character ellipsis marker
(exactly 80 characters). -/
theorem c10_cell_width (result : TranscriptionResult)
    (video_stem : String) (video_duration : ℚ) (now : String) (seg : Segment)
    (hmem : seg ∈ result.segments?.getD []) :
    appendixRow seg ∈ markdownLines result video_stem video_duration now
    ∧ (appendixCell seg).length ≤ 80
    ∧ ((appendixCell seg = escapePipes (pyStrip seg.text)
          ∧ (appendixCell seg).length ≤ 80)
        ∨ (appendixCell seg = pySlice (escapePipes (pyStrip seg.text)) 77 ++ "..."
          ∧ (appendixCell seg).length = 80)) := by
  refine ⟨?_, ?_, appendixCell_cases seg⟩
  · have h1 : appendixRow seg ∈ (result.segments?.getD []).map appendixRow :=
      List.mem_map.2 ⟨seg, hmem, rfl⟩
    simp [markdownLines, List.mem_append, h1]
  · rcases appendixCell_cases seg with h | h
    · exact h.2
    · omega

/-- Witness for C10 on the 85-character segment: its cell has exactly
80 characters. -/
theorem c10_cell_width_witness :
    seg85 ∈ result85.segments?.getD []
    ∧ (appendixRow seg85 ∈ markdownLines result85 "v" 1 "t"
      ∧ (appendixCell seg85).length ≤ 80
      ∧ ((appendixCell seg85 = escapePipes (pyStrip seg85.text)
            ∧ (appendixCell seg85).length ≤ 80)
          ∨ (appendixCell seg85 = pySlice (escapePipes (pyStrip seg85.text)) 77 ++ "..."
            ∧ (appendixCell seg85).length = 80)))
    ∧ (appendixCell seg85).length = 80 :=
  ⟨by decide, c10_cell_width result85 "v" 1 "t" seg85 (by decide), by decide⟩

theorem cleanup_tmp_exists (st : PipeState) : (cleanup st).tmp_exists = false := by
  unfold cleanup
  split
  · rfl
  · rename_i h
    simpa using h

/-- C1: in every run in which the temporary audio path was acquired,
the temporary audio file no longer exists when the run returns — the
`finally` cleanup runs on every exit path (normal completion,
extraction failure via `sys.exit`, and any exception during
transcription or document generation/writing). -/
theorem c1_tmp_cleanup (env : Env) (video_path : String)
    (hacq : (run_main env video_path).tmp_acquired = true) :
    (run_main env video_path).tmp_exists = false := by
  unfold run_main
  dsimp only
  split
  · rfl
  · exact cleanup_tmp_exists _

/-- An environment in which audio extraction fails. -/
def envExtractFail : Env :=
  { video_exists := true, probe_stdout := "N/A", probe_stderr := "",
    extract_ok := false, transcribe := .error "unreached", write_ok := true }

/-- An environment in which transcription raises. -/
def envTranscribeRaises : Env :=
  { video_exists := true, probe_stdout := "", probe_stderr := "",
    extract_ok := true, transcribe := .error "CUDA out of memory", write_ok := true }

/-- An empty transcription result used by the success environments. -/
def okResult : TranscriptionResult := ⟨some "zh", some []⟩

/-- An environment in which every stage succeeds (the probe output is
left unparseable, which is recoverable). -/
def envAllOk : Env :=
  { video_exists := true, probe_stdout := "", probe_stderr := "",
    extract_ok := true, transcribe := .ok okResult, write_ok := true }

/-- Witness for C1 on three acquired-path runs: extraction failure,
transcription exception, and normal completion. -/
theorem c1_tmp_cleanup_witness :
    ((run_main envExtractFail "/v.mp4").tmp_acquired = true
      ∧ (run_main envExtractFail "/v.mp4").tmp_exists = false)
    ∧ ((run_main envTranscribeRaises "/v.mp4").tmp_acquired = true
      ∧ (run_main envTranscribeRaises "/v.mp4").tmp_exists = false)
    ∧ ((run_main envAllOk "/v.mp4").tmp_acquired = true
      ∧ (run_main envAllOk "/v.mp4").tmp_exists = false) :=
  ⟨⟨by decide, c1_tmp_cleanup envExtractFail "/v.mp4" (by decide)⟩,
   ⟨by decide, c1_tmp_cleanup envTranscribeRaises "/v.mp4" (by decide)⟩,
   ⟨by decide, c1_tmp_cleanup envAllOk "/v.mp4" (by decide)⟩⟩

/-- C8: the process exits with status 1 on a missing input video
(before the temporary audio path is acquired) and on extraction failure
(before the transcription engine is invoked, with the temporary file
cleaned up); it exits with status 0 when every stage succeeds. -/
theorem c8_exit_codes (env : Env) (video_path : String) :
    (env.video_exists = false →
      (run_main env video_path).outcome = .exited 1
      ∧ (run_main env video_path).tmp_acquired = false)
    ∧ (env.video_exists = true → env.extract_ok = false →
      (run_main env video_path).outcome = .exited 1
      ∧ (run_main env video_path).transcribe_invoked = false
      ∧ (run_main env video_path).tmp_exists = false)
    ∧ (∀ result : TranscriptionResult,
      env.video_exists = true → env.extract_ok = true →
      env.transcribe = .ok result → env.write_ok = true →
      (run_main env video_path).outcome = .exited 0
      ∧ (run_main env video_path).output_written = true) := by
  refine ⟨?_, ?_, ?_⟩
  · intro hv
    simp [run_main, hv]
  · intro hv hx
    simp [run_main, pipeline_body, cleanup, hv, hx]
  · intro result hv hx ht hw
    simp [run_main, pipeline_body, cleanup, hv, hx, ht, hw]

/-- An environment whose input video file does not exist. -/
def envMissingInput : Env :=
  { video_exists := false, probe_stdout := "", probe_stderr := "",
    extract_ok := true, transcribe := .error "unreached", write_ok := true }

/-- Witness for C8 on the three terminal situations: missing input,
extraction failure, and full success. -/
theorem c8_exit_codes_witness :
    (envMissingInput.video_exists = false
      ∧ ((run_main envMissingInput "/v.mp4").outcome = .exited 1
        ∧ (run_main envMissingInput "/v.mp4").tmp_acquired = false))
    ∧ ((envExtractFail.video_exists = true ∧ envExtractFail.extract_ok = false)
      ∧ ((run_main envExtractFail "/v.mp4").outcome = .exited 1
        ∧ (run_main envExtractFail "/v.mp4").transcribe_invoked = false
        ∧ (run_main envExtractFail "/v.mp4").tmp_exists = false))
    ∧ ((envAllOk.video_exists = true ∧ envAllOk.extract_ok = true
        ∧ envAllOk.transcribe = .ok okResult ∧ envAllOk.write_ok = true)
      ∧ ((run_main envAllOk "/v.mp4").outcome = .exited 0
        ∧ (run_main envAllOk "/v.mp4").output_written = true)) :=
  ⟨⟨by decide, (c8_exit_codes envMissingInput "/v.mp4").1 (by decide)⟩,
   ⟨⟨by decide, by decide⟩,
    (c8_exit_codes envExtractFail "/v.mp4").2.1 (by decide) (by decide)⟩,
   ⟨⟨by decide, by decide, by decide, by decide⟩,
    (c8_exit_codes envAllOk "/v.mp4").2.2 okResult (by decide) (by decide)
      (by decide) (by decide)⟩⟩

/-- C7: when the probe output fails to parse as a float, the duration
probe returns 0.0 and emits a warning that includes the tool's stripped
stdout and stderr when non-empty; the failure is recoverable: with
every later stage succeeding, the run completes, writes the document,
and exits with status 0, using 0.0 as the duration. -/
theorem c7_probe_failure_recoverable (env : Env) (video_path : String)
    (result : TranscriptionResult)
    (hparse : pyFloat? (pyStrip env.probe_stdout) = none)
    (hv : env.video_exists = true) (hx : env.extract_ok = true)
    (ht : env.transcribe = .ok result) (hw : env.write_ok = true) :
    (get_video_duration video_path env.probe_stdout env.probe_stderr).1 = 0
    ∧ (run_main env video_path).used_duration = some 0
    ∧ ("[警告] 无法解析视频时长，返回 0.0 作为默认值。视频文件: " ++ video_path)
        ∈ (run_main env video_path).warnings
    ∧ ((pyStrip env.probe_stdout) ≠ "" →
        ("[警告] ffprobe 标准输出: " ++ (pyStrip env.probe_stdout))
          ∈ (run_main env video_path).warnings)
    ∧ ((pyStrip env.probe_stderr) ≠ "" →
        ("[警告] ffprobe 错误输出: " ++ (pyStrip env.probe_stderr))
          ∈ (run_main env video_path).warnings)
    ∧ (run_main env video_path).outcome = .exited 0
    ∧ (run_main env video_path).output_written = true := by
  have hdur : get_video_duration video_path env.probe_stdout env.probe_stderr
      = ((0 : ℚ),
        ["[警告] 无法解析视频时长，返回 0.0 作为默认值。视频文件: " ++ video_path]
          ++ (if (pyStrip env.probe_stdout) ≠ "" then
              ["[警告] ffprobe 标准输出: " ++ (pyStrip env.probe_stdout)] else [])
          ++ (if (pyStrip env.probe_stderr) ≠ "" then
              ["[警告] ffprobe 错误输出: " ++ (pyStrip env.probe_stderr)] else [])) := by
    unfold get_video_duration
    rw [hparse]
  have hwarn : (run_main env video_path).warnings
      = (get_video_duration video_path env.probe_stdout env.probe_stderr).2 := by
    simp [run_main, hv]
  have hused : (run_main env video_path).used_duration
      = some (get_video_duration video_path env.probe_stdout env.probe_stderr).1 := by
    simp [run_main, hv]
  refine ⟨by rw [hdur], ?_, ?_, ?_, ?_, ?_, ?_⟩
  · rw [hused, hdur]
  · rw [hwarn, hdur]
    simp
  · intro hne
    rw [hwarn, hdur]
    simp [if_pos hne]
  · intro hne
    rw [hwarn, hdur]
    simp [if_pos hne]
  · simp [run_main, pipeline_body, cleanup, hv, hx, ht, hw]
  · simp [run_main, pipeline_body, cleanup, hv, hx, ht, hw]

/-- An environment with unparseable probe output (non-empty stdout and
stderr) and every later stage succeeding. -/
def envProbeGarbage : Env :=
  { video_exists := true, probe_stdout := " N/A ", probe_stderr := "stream err",
    extract_ok := true, transcribe := .ok okResult, write_ok := true }

/-- Witness for C7 on an environment whose probe prints `" N/A "`. -/
theorem c7_probe_failure_witness :
    (pyFloat? (pyStrip envProbeGarbage.probe_stdout) = none
      ∧ envProbeGarbage.video_exists = true
      ∧ envProbeGarbage.extract_ok = true
      ∧ envProbeGarbage.transcribe = .ok okResult
      ∧ envProbeGarbage.write_ok = true)
    ∧ ((get_video_duration "/v.mp4" envProbeGarbage.probe_stdout
          envProbeGarbage.probe_stderr).1 = 0
      ∧ (run_main envProbeGarbage "/v.mp4").used_duration = some 0
      ∧ ("[警告] 无法解析视频时长，返回 0.0 作为默认值。视频文件: " ++ "/v.mp4")
          ∈ (run_main envProbeGarbage "/v.mp4").warnings
      ∧ ((pyStrip envProbeGarbage.probe_stdout) ≠ "" →
          ("[警告] ffprobe 标准输出: " ++ (pyStrip envProbeGarbage.probe_stdout))
            ∈ (run_main envProbeGarbage "/v.mp4").warnings)
      ∧ ((pyStrip envProbeGarbage.probe_stderr) ≠ "" →
          ("[警告] ffprobe 错误输出: " ++ (pyStrip envProbeGarbage.probe_stderr))
            ∈ (run_main envProbeGarbage "/v.mp4").warnings)
      ∧ (run_main envProbeGarbage "/v.mp4").outcome = .exited 0
      ∧ (run_main envProbeGarbage "/v.mp4").output_written = true) :=
  ⟨⟨by decide, by decide, by decide, by decide, by decide⟩,
   c7_probe_failure_recoverable envProbeGarbage "/v.mp4" okResult
     (by decide) (by decide) (by decide) (by decide) (by decide)⟩

end Video2doc
